import Mathlib

/-!
Shallow embedding of the launchk query/protocol layer:
`src/launchk/src/launchd/query.rs` and
`src/launchk/src/launchd/job_type_filter.rs`.

External collaborators (the XPC transport, the `xpc_sys` helper crate and the
request-template constants of `launchd/message.rs`) are not part of the shown
core; where their behaviour decides a claim they are modelled from the spec,
and each such definition carries a doc comment saying so. The transport
exchange (`pipe_routine_with_error_handling`) is a function parameter of type
`Pipe`, so theorems quantify over transport behaviours.
-/

namespace Launchk

/-- Modelled from the spec: the error taxonomy of section 7 (NotFound,
TransportFailure, MalformedResponse, ConversionFailure,
ResourceAllocationFailure). The concrete `XPCError` enum lives in the external
`xpc_sys` crate, which is not part of the shown core. -/
inductive XPCError where
  | notFound
  | transportFailure
  | malformedResponse
  | conversionFailure
  | resourceAllocationFailure

/-- Modelled from the spec: the value types a request or response entry can
carry (string, integer, list-of-string, file descriptor, raw object handle,
nested dictionary) per section 6. The concrete `XPCObject` lives in the
external `xpc_sys` crate. -/
inductive XPCObject where
  | uint64 : Nat → XPCObject
  | int64 : Int → XPCObject
  | string : String → XPCObject
  | stringList : List String → XPCObject
  | fileDescriptor : Int → XPCObject
  | shmemHandle : Nat → XPCObject
  | dictionary : List (String × XPCObject) → XPCObject

/-- An XPC dictionary: a finite map from string keys to XPC objects,
modelled as an association list (first binding of a key wins). -/
abbrev XPCDictionary := List (String × XPCObject)

/-- Insert-or-replace of one entry, as `XPCDictionary::entry` does on the
underlying hash map. -/
def dictInsert (d : XPCDictionary) (k : String) (v : XPCObject) : XPCDictionary :=
  (k, v) :: d.filter (fun e => e.1 != k)

/-- Key lookup in a dictionary. -/
def dictLookup (d : XPCDictionary) (k : String) : Option XPCObject :=
  (d.find? (fun e => e.1 == k)).map (fun e => e.2)

/-- `XPCDictionary::extend`: merge every entry of `other` into `d`. -/
def extend (d other : XPCDictionary) : XPCDictionary :=
  other.foldl (fun acc kv => dictInsert acc kv.1 kv.2) d

/-- `QueryBuilder::entry`. -/
def entry (d : XPCDictionary) (k : String) (v : XPCObject) : XPCDictionary :=
  dictInsert d k v

/-- `QueryBuilder::entry_if_present`: insert only when the value is present. -/
def entry_if_present (d : XPCDictionary) (k : String) (v : Option XPCObject) : XPCDictionary :=
  match v with
  | none => d
  | some x => dictInsert d k x

/-- Modelled from the spec: `DomainType` is an external enumeration (owned by
`xpc_sys`, not part of the shown core) of domain scopes "ordered System <
RequestorUserDomain < ... < RequestorDomain" (section 3), used both for
explicit target selection and for iteration order during discovery; `User` is
one of the elided members. Only the relative order matters to the claims:
System is least and RequestorDomain is greatest. -/
inductive DomainType where
  | system
  | requestorUserDomain
  | user
  | requestorDomain
  | unknown

/-- Modelled from the spec: the fixed numeric value (`as u64`) of each domain
scope, witnessing the spec's ascending order; `unknown` is the fallback
member for values outside the named scopes. -/
def DomainType.toU64 : DomainType → Nat
  | .system => 1
  | .requestorUserDomain => 2
  | .user => 3
  | .requestorDomain => 4
  | .unknown => 0

/-- Modelled from the spec: the `u64 → DomainType` conversion (`.into()`),
inverse of `DomainType.toU64` with a fallback for unnamed values. -/
def DomainType.ofU64 : Nat → DomainType
  | 1 => .system
  | 2 => .requestorUserDomain
  | 3 => .user
  | 4 => .requestorDomain
  | _ => .unknown

/-- Modelled from the spec: `SessionType` is an external enumeration consumed,
not owned, by the query layer (section 3). -/
inductive SessionType where
  | aqua
  | standardIo
  | background
  | loginWindow
  | system

/-- Modelled from the spec: the textual name of a session scope, used when a
session entry is attached to a request. -/
def SessionType.name : SessionType → String
  | .aqua => "Aqua"
  | .standardIo => "StandardIO"
  | .background => "Background"
  | .loginWindow => "LoginWindow"
  | .system => "System"

/-- `QueryBuilder::with_domain_type_or_default`. Modelled from the spec:
"the domain ... defaulted when absent" (section 4.3); the default scope is
RequestorDomain. Sets the "type" entry to the domain's numeric value. -/
def with_domain_type_or_default (d : XPCDictionary) (t : Option DomainType) : XPCDictionary :=
  entry d "type" (XPCObject.uint64 (t.getD DomainType.requestorDomain).toU64)

/-- `QueryBuilder::with_session_type_or_default`. Modelled from the spec:
"the session ... defaulted when absent" (section 4.3); the default session is
Aqua. -/
def with_session_type_or_default (d : XPCDictionary) (s : Option SessionType) : XPCDictionary :=
  entry d "session" (XPCObject.string (s.getD SessionType.aqua).name)

/-- `QueryBuilder::with_handle_or_default`. Modelled from the spec:
"the handle ... defaulted when absent" (section 4.3); the default handle is 0. -/
def with_handle_or_default (d : XPCDictionary) (h : Option Nat) : XPCDictionary :=
  entry d "handle" (XPCObject.uint64 (h.getD 0))

/-- The transport collaborator: one request/response exchange
(`pipe_routine_with_error_handling`), returning a decoded response or a typed
error. Query-layer operations are parameterised over it. -/
abbrev Pipe := XPCDictionary → Except XPCError XPCDictionary

/-- Whether a transport result is a success. -/
def respOk {α : Type} : Except XPCError α → Bool
  | .ok _ => true
  | .error _ => false

/-- Modelled from the spec: the `LIST_SERVICES` request template of
`launchd/message.rs` (not part of the shown core), an immutable routine
identity that list queries start from (section 3). -/
def LIST_SERVICES : XPCDictionary := [("routine-id", XPCObject.string "list services")]

/-- Modelled from the spec: the `LOAD_PATHS` request template of
`launchd/message.rs` (not part of the shown core). -/
def LOAD_PATHS : XPCDictionary := [("routine-id", XPCObject.string "load paths")]

/-- Modelled from the spec: the `UNLOAD_PATHS` request template of
`launchd/message.rs` (not part of the shown core). -/
def UNLOAD_PATHS : XPCDictionary := [("routine-id", XPCObject.string "unload paths")]

/-- Modelled from the spec: the `ENABLE_NAMES` request template of
`launchd/message.rs` (not part of the shown core). -/
def ENABLE_NAMES : XPCDictionary := [("routine-id", XPCObject.string "enable names")]

/-- Modelled from the spec: the `DISABLE_NAMES` request template of
`launchd/message.rs` (not part of the shown core). -/
def DISABLE_NAMES : XPCDictionary := [("routine-id", XPCObject.string "disable names")]

/-- Modelled from the spec: the `DUMPSTATE` request template of
`launchd/message.rs` (not part of the shown core). -/
def DUMPSTATE : XPCDictionary := [("routine-id", XPCObject.string "dumpstate")]

/-! ## JobTypeFilter (`launchd/job_type_filter.rs`)

The bitflags type is a `u32` bit pattern; the named constants are the fixed
powers of two of the source. -/

/-- `JobTypeFilter::SYSTEM = (1 << 1)`. -/
def JobTypeFilter.SYSTEM : Nat := 1 <<< 1

/-- `JobTypeFilter::GLOBAL = (1 << 2)`. -/
def JobTypeFilter.GLOBAL : Nat := 1 <<< 2

/-- `JobTypeFilter::USER = (1 << 3)`. -/
def JobTypeFilter.USER : Nat := 1 <<< 3

/-- `JobTypeFilter::AGENT = (1 << 4)`. -/
def JobTypeFilter.AGENT : Nat := 1 <<< 4

/-- `JobTypeFilter::DAEMON = (1 << 5)`. -/
def JobTypeFilter.DAEMON : Nat := 1 <<< 5

/-- `JobTypeFilter::LOADED = (1 << 6)`. -/
def JobTypeFilter.LOADED : Nat := 1 <<< 6

/-- A mask built from the six named bits, one boolean per bit in the order
SYSTEM, GLOBAL, USER, AGENT, DAEMON, LOADED. -/
def JobTypeFilter.ofBits (s g u a d l : Bool) : Nat :=
  (if s then JobTypeFilter.SYSTEM else 0) |||
  (if g then JobTypeFilter.GLOBAL else 0) |||
  (if u then JobTypeFilter.USER else 0) |||
  (if a then JobTypeFilter.AGENT else 0) |||
  (if d then JobTypeFilter.DAEMON else 0) |||
  (if l then JobTypeFilter.LOADED else 0)

/-- `impl fmt::Display for JobTypeFilter`: pushes one lowercase letter per set
bit, testing `(self & BIT) == BIT` in the fixed order s, g, u, a, d, l. -/
def to_display_string (m : Nat) : String :=
  (if m &&& JobTypeFilter.SYSTEM = JobTypeFilter.SYSTEM then "s" else "") ++
  (if m &&& JobTypeFilter.GLOBAL = JobTypeFilter.GLOBAL then "g" else "") ++
  (if m &&& JobTypeFilter.USER = JobTypeFilter.USER then "u" else "") ++
  (if m &&& JobTypeFilter.AGENT = JobTypeFilter.AGENT then "a" else "") ++
  (if m &&& JobTypeFilter.DAEMON = JobTypeFilter.DAEMON then "d" else "") ++
  (if m &&& JobTypeFilter.LOADED = JobTypeFilter.LOADED then "l" else "")

/-- `impl fmt::Debug for JobTypeFilter`: a match on exact equality with each
single-bit constant in declaration order, writing the uppercase name; every
other pattern writes nothing. -/
def debug_label (m : Nat) : String :=
  if m = JobTypeFilter.SYSTEM then "SYSTEM"
  else if m = JobTypeFilter.GLOBAL then "GLOBAL"
  else if m = JobTypeFilter.USER then "USER"
  else if m = JobTypeFilter.AGENT then "AGENT"
  else if m = JobTypeFilter.DAEMON then "DAEMON"
  else if m = JobTypeFilter.LOADED then "LOADED"
  else ""

/-- The debug label the spec prescribes for a combination of the six bits:
the canonical uppercase name when exactly one bit is set, empty otherwise. -/
def debug_label_expected (s g u a d l : Bool) : String :=
  match s, g, u, a, d, l with
  | true, false, false, false, false, false => "SYSTEM"
  | false, true, false, false, false, false => "GLOBAL"
  | false, false, true, false, false, false => "USER"
  | false, false, false, true, false, false => "AGENT"
  | false, false, false, false, true, false => "DAEMON"
  | false, false, false, false, false, true => "LOADED"
  | _, _, _, _, _, _ => ""

/-! ## Query layer (`launchd/query.rs`) -/

/-- The request `find_in_all` sends for one numeric domain value: the
`LIST_SERVICES` template extended with a "type" entry holding the raw domain
value and a "name" entry holding the label. -/
def find_in_all_request (n : Nat) (label : String) : XPCDictionary :=
  entry (entry (extend [] LIST_SERVICES) "type" (XPCObject.uint64 n)) "name" (XPCObject.string label)

/-- The body of `find_in_all`'s `for` loop over the remaining candidate
domain values: pipe the list request for each value in turn, returning on the
first success, and `NotFound` when the candidates are exhausted. -/
def find_in_all_loop (pipe : Pipe) (label : String) :
    List Nat → Except XPCError (DomainType × XPCDictionary)
  | [] => Except.error XPCError.notFound
  | n :: rest =>
    match pipe (find_in_all_request n label) with
    | .ok r => Except.ok (DomainType.ofU64 n, r)
    | .error _ => find_in_all_loop pipe label rest

/-- The candidate domain values `find_in_all` probes:
`DomainType::System as u64 .. DomainType::RequestorDomain as u64`, a
half-open ascending range (the upper bound is excluded, as in Rust's `..`). -/
def probedDomainValues : List Nat :=
  List.range' DomainType.system.toU64 (DomainType.requestorDomain.toU64 - DomainType.system.toU64)

/-- `find_in_all`: probe each candidate domain in ascending order with a list
request for the label, returning the first success as a (domain, response)
pair, and `NotFound` when every probe fails. -/
def find_in_all (pipe : Pipe) (label : String) : Except XPCError (DomainType × XPCDictionary) :=
  find_in_all_loop pipe label probedDomainValues

/-- A transport stub that fails the list request for every domain except
RequestorDomain, for which it succeeds with an empty services response. -/
def stub_requestor_only : Pipe := fun d =>
  match dictLookup d "type" with
  | some (XPCObject.uint64 n) =>
    if n = DomainType.requestorDomain.toU64
    then Except.ok [("services", XPCObject.dictionary [])]
    else Except.error XPCError.transportFailure
  | _ => Except.error XPCError.transportFailure

/-- A transport stub that fails for every domain. -/
def stub_all_fail : Pipe := fun _ => Except.error XPCError.transportFailure

/-- `list`: a single list request in one explicit domain; an absent `name`
means "list all names in that domain". -/
def list (pipe : Pipe) (domain_type : DomainType) (name : Option String) :
    Except XPCError XPCDictionary :=
  pipe (entry_if_present
    (with_domain_type_or_default (extend [] LIST_SERVICES) (some domain_type))
    "name" (name.map XPCObject.string))

/-- `XPCDictionary::get_as_dictionary`. Modelled from the spec:
`get_field(response, path)` performs nested-dictionary navigation by a
sequence of keys (section 6); a missing key or a non-dictionary value is a
MalformedResponse error. -/
def get_as_dictionary (d : XPCDictionary) : List String → Except XPCError XPCDictionary
  | [] => Except.ok d
  | k :: rest =>
    match dictLookup d k with
    | some (XPCObject.dictionary hm) => get_as_dictionary hm rest
    | _ => Except.error XPCError.malformedResponse

/-- The per-domain body of `list_all`: list the domain, extract the nested
"services" dictionary, and collect its keys. -/
def svc_for_type (pipe : Pipe) (t : DomainType) : Except XPCError (List String) :=
  ((list pipe t none).bind (fun d => get_as_dictionary d ["services"])).map
    (fun hm => hm.map (fun e => e.1))

/-- The domains `list_all` queries: System, RequestorUserDomain and
RequestorDomain unconditionally, plus User when `rs_geteuid()` returns 0. -/
def list_all_domains (euid : Nat) : List DomainType :=
  [DomainType.system, DomainType.requestorUserDomain, DomainType.requestorDomain] ++
    (if euid = 0 then [DomainType.user] else [])

/-- `list_all`: for each queried domain, collect the service labels of a
succeeding list call (a failing domain is logged and contributes nothing),
and return the set of all collected labels. `euid` is the result of the
external `rs_geteuid()` collaborator. -/
def list_all (pipe : Pipe) (euid : Nat) : Finset String :=
  (((list_all_domains euid).filterMap (fun t => (svc_for_type pipe t).toOption)).flatten).toFinset

/-- The label set a single domain contributes to `list_all`: the keys of its
services dictionary when its list call succeeds, nothing when it fails. -/
def domain_contribution (pipe : Pipe) (t : DomainType) : Finset String :=
  match svc_for_type pipe t with
  | .ok ks => ks.toFinset
  | .error _ => ∅

/-- The process-wide `ENTRY_STATUS_CACHE`: a lock-guarded mapping from
service label to a cached status record, modelled as an association list.
The record type `α` is owned by `entry_status.rs`, outside the shown core,
and no claim depends on its contents. -/
abbrev Cache (α : Type) := List (String × α)

/-- Whether the cache holds an entry for the label. -/
def cacheContains {α : Type} (c : Cache α) (label : String) : Bool :=
  c.any (fun e => e.1 == label)

/-- `HashMap::remove` of the label's entry. -/
def cacheRemove {α : Type} (c : Cache α) (label : String) : Cache α :=
  c.filter (fun e => e.1 != label)

/-- The outcome of an operation that first locks the status cache: either the
lock acquisition failed and `.expect` aborted the process (`panicked`, with
the expect message), or the operation completed with the updated cache and
the transport result. -/
inductive OpResult (α : Type) where
  | panicked : String → OpResult α
  | completed : Cache α → Except XPCError XPCDictionary → OpResult α

/-- The request `load` dispatches: the `LOAD_PATHS` template with domain,
session and handle defaulted when absent and the plist path as a
single-element "paths" list. -/
def load_request (plist_path : String) (domain_type : Option DomainType)
    (session : Option SessionType) (handle : Option Nat) : XPCDictionary :=
  entry
    (with_handle_or_default
      (with_session_type_or_default
        (with_domain_type_or_default (extend [] LOAD_PATHS) domain_type) session)
      handle)
    "paths" (XPCObject.stringList [plist_path])

/-- The request `unload` dispatches (same shape as `load_request`, from the
`UNLOAD_PATHS` template). -/
def unload_request (plist_path : String) (domain_type : Option DomainType)
    (session : Option SessionType) (handle : Option Nat) : XPCDictionary :=
  entry
    (with_handle_or_default
      (with_session_type_or_default
        (with_domain_type_or_default (extend [] UNLOAD_PATHS) domain_type) session)
      handle)
    "paths" (XPCObject.stringList [plist_path])

/-- `load`: first acquires the status-cache lock (`lock` is the acquisition
result; `none` models a poisoned lock, on which `.expect("Must invalidate")`
aborts the process) and removes the label's entry, then builds the load
request and dispatches it. -/
def load {α : Type} (pipe : Pipe) (lock : Option (Cache α)) (label plist_path : String)
    (domain_type : Option DomainType) (session : Option SessionType)
    (handle : Option Nat) : OpResult α :=
  match lock with
  | none => OpResult.panicked "Must invalidate"
  | some c =>
    OpResult.completed (cacheRemove c label)
      (pipe (load_request plist_path domain_type session handle))

/-- `unload`: identical shape to `load`, dispatching the unload request. -/
def unload {α : Type} (pipe : Pipe) (lock : Option (Cache α)) (label plist_path : String)
    (domain_type : Option DomainType) (session : Option SessionType)
    (handle : Option Nat) : OpResult α :=
  match lock with
  | none => OpResult.panicked "Must invalidate"
  | some c =>
    OpResult.completed (cacheRemove c label)
      (pipe (unload_request plist_path domain_type session handle))

/-- The request `enable` dispatches: the `ENABLE_NAMES` template with an
explicit domain, a singular "name" entry and a "names" list entry both set to
the label, and a defaulted absent handle. -/
def enable_request (label : String) (domain_type : DomainType) : XPCDictionary :=
  with_handle_or_default
    (entry
      (entry (with_domain_type_or_default (extend [] ENABLE_NAMES) (some domain_type))
        "name" (XPCObject.string label))
      "names" (XPCObject.stringList [label]))
    none

/-- The request `disable` dispatches (same shape as `enable_request`, from
the `DISABLE_NAMES` template). -/
def disable_request (label : String) (domain_type : DomainType) : XPCDictionary :=
  with_handle_or_default
    (entry
      (entry (with_domain_type_or_default (extend [] DISABLE_NAMES) (some domain_type))
        "name" (XPCObject.string label))
      "names" (XPCObject.stringList [label]))
    none

/-- `enable`: builds and dispatches the enable request. The source never
touches `ENTRY_STATUS_CACHE` here, so the ambient cache threads through
unchanged. -/
def enable {α : Type} (pipe : Pipe) (cache : Cache α) (label : String)
    (domain_type : DomainType) : Cache α × Except XPCError XPCDictionary :=
  (cache, pipe (enable_request label domain_type))

/-- `disable`: builds and dispatches the disable request; like `enable`, the
source never touches `ENTRY_STATUS_CACHE` here. -/
def disable {α : Type} (pipe : Pipe) (cache : Cache α) (label : String)
    (domain_type : DomainType) : Cache α × Except XPCError XPCDictionary :=
  (cache, pipe (disable_request label domain_type))

/-- A task-local shared memory region: an opaque region handle plus its size. -/
structure XPCShmem where
  region : Nat
  size : Nat

/-- The `MAP_SHARED` mmap flag (a small libc constant; `i32::try_from` of it
always succeeds, and no claim depends on its value). -/
def MAP_SHARED : Nat := 1

/-- The request `dumpstate` dispatches: the `DUMPSTATE` template with a
"shmem" entry carrying the region's handle. -/
def dumpstate_request (shmem : XPCShmem) : XPCDictionary :=
  entry (extend [] DUMPSTATE) "shmem" (XPCObject.shmemHandle shmem.region)

/-- `XPCDictionary::get` on a response. Modelled from the spec: an expected
field that is missing is a MalformedResponse error (section 7). -/
def response_get (d : XPCDictionary) (k : String) : Except XPCError XPCObject :=
  match dictLookup d k with
  | some v => Except.ok v
  | none => Except.error XPCError.malformedResponse

/-- `xpc_value::<u64>` on a response field. Modelled from the spec: the
integer field is converted to an unsigned size and the conversion fails with
ConversionFailure when the value is negative-equivalent or not numeric
(sections 4.3 and 7). -/
def xpc_value_u64 : XPCObject → Except XPCError Nat
  | .uint64 n => Except.ok n
  | .int64 i => if 0 ≤ i then Except.ok i.toNat else Except.error XPCError.conversionFailure
  | _ => Except.error XPCError.conversionFailure

/-- `dumpstate`: allocates a 0x1400000-byte task-local shared memory region
(`alloc` is the external allocator collaborator, taking size and flags),
attaches its handle to the request, dispatches, reads back the
"bytes-written" response field and converts it to an unsigned size, returning
the size and the region. -/
def dumpstate (alloc : Nat → Nat → Except XPCError XPCShmem) (pipe : Pipe) :
    Except XPCError (Nat × XPCShmem) := do
  let shmem ← alloc 0x1400000 MAP_SHARED
  let response ← pipe (dumpstate_request shmem)
  let v ← response_get response "bytes-written"
  let bytes_written ← xpc_value_u64 v
  pure (bytes_written, shmem)

/-- An allocator stub that always succeeds, handing out region handle 7. -/
def alloc_ok : Nat → Nat → Except XPCError XPCShmem :=
  fun size _flags => Except.ok ⟨7, size⟩

/-- A transport stub answering every request with "bytes-written" = 4096. -/
def pipe_bytes_4096 : Pipe :=
  fun _ => Except.ok [("bytes-written", XPCObject.uint64 4096)]

/-- A transport stub answering with a response lacking "bytes-written". -/
def pipe_bytes_absent : Pipe := fun _ => Except.ok []

/-- A transport stub answering with "bytes-written" = -1 (signed). -/
def pipe_bytes_negative : Pipe :=
  fun _ => Except.ok [("bytes-written", XPCObject.int64 (-1))]

/-! ## Theorems -/

theorem find_in_all_loop_eq_find? (pipe : Pipe) (label : String) :
    ∀ ns : List Nat,
      find_in_all_loop pipe label ns =
        match ns.find? (fun n => respOk (pipe (find_in_all_request n label))) with
        | some n => (pipe (find_in_all_request n label)).map (fun r => (DomainType.ofU64 n, r))
        | none => Except.error XPCError.notFound
  | [] => rfl
  | n :: rest => by
    rw [find_in_all_loop, List.find?_cons]
    cases h : pipe (find_in_all_request n label) with
    | ok r => simp [respOk, h, Except.map]
    | error e => simp [respOk, h, find_in_all_loop_eq_find? pipe label rest]

/-- Claim C1: `find_in_all` iterates the candidate domain values in ascending
order starting at System, with RequestorDomain's position an exclusive scan
bound (`probedDomainValues` is exactly that half-open range); it returns the
(domain, response) pair of the first probed domain whose list request for the
label succeeds, and `NotFound` when no probed domain succeeds. -/
theorem find_in_all_first_success (pipe : Pipe) (label : String) :
    find_in_all pipe label =
      match probedDomainValues.find? (fun n => respOk (pipe (find_in_all_request n label))) with
      | some n => (pipe (find_in_all_request n label)).map (fun r => (DomainType.ofU64 n, r))
      | none => Except.error XPCError.notFound :=
  find_in_all_loop_eq_find? pipe label probedDomainValues

/-- Counterexample to claim C2: against the transport that succeeds exactly
for RequestorDomain, `find_in_all "svc"` does not return any success pair —
RequestorDomain sits at the exclusive scan bound and is never probed — and
instead returns `NotFound`. -/
theorem find_in_all_requestor_only_not_ok :
    respOk (find_in_all stub_requestor_only "svc") = false ∧
    find_in_all stub_requestor_only "svc" = Except.error XPCError.notFound := by
  exact ⟨rfl, rfl⟩

/-- Claim C2 (amended): for a transport that fails the list request for
System and RequestorUserDomain (and every other probed domain) but succeeds
for RequestorDomain, `find_in_all "svc"` returns `NotFound`, because
RequestorDomain is the exclusive scan bound and is never probed; for a
transport that fails for every domain it likewise returns `NotFound`. -/
theorem find_in_all_stub_results :
    find_in_all stub_requestor_only "svc" = Except.error XPCError.notFound ∧
    find_in_all stub_all_fail "svc" = Except.error XPCError.notFound := by
  exact ⟨rfl, rfl⟩

theorem cacheRemove_no_entry {α : Type} (c : Cache α) (label : String) :
    cacheContains (cacheRemove c label) label = false := by
  simp only [cacheContains, cacheRemove, List.any_eq_false]
  intro x hx
  have hmem := List.mem_filter.mp hx
  simpa using hmem.2

/-- Claim C3: for every label, both `load` and `unload` remove that label's
entry from the status cache before dispatching the request: with the lock
acquired on cache `c`, each completes with cache `cacheRemove c label` — a
cache with no entry for the label — paired with whatever the transport
returns, so the invalidation stands even when the transport request fails. -/
theorem load_unload_invalidate_before_dispatch {α : Type} (pipe : Pipe) (c : Cache α)
    (label plist_path : String) (d : Option DomainType) (s : Option SessionType)
    (h : Option Nat) :
    load pipe (some c) label plist_path d s h =
      OpResult.completed (cacheRemove c label) (pipe (load_request plist_path d s h)) ∧
    unload pipe (some c) label plist_path d s h =
      OpResult.completed (cacheRemove c label) (pipe (unload_request plist_path d s h)) ∧
    cacheContains (cacheRemove c label) label = false :=
  ⟨rfl, rfl, cacheRemove_no_entry c label⟩

/-- Claim C9: when the status-cache lock cannot be acquired (a poisoned
lock), `load` and `unload` abort with the fatal `.expect` condition
"Must invalidate" instead of continuing past the invalidation step. -/
theorem load_unload_poisoned_lock_aborts (α : Type) (pipe : Pipe)
    (label plist_path : String) (d : Option DomainType) (s : Option SessionType)
    (h : Option Nat) :
    load pipe (none : Option (Cache α)) label plist_path d s h =
      OpResult.panicked "Must invalidate" ∧
    unload pipe (none : Option (Cache α)) label plist_path d s h =
      OpResult.panicked "Must invalidate" :=
  ⟨rfl, rfl⟩

/-- Claim C7: `enable` and `disable` perform no status-cache invalidation:
for every cache, label and domain, each returns the cache unchanged alongside
the transport's answer to its request. -/
theorem enable_disable_no_invalidation {α : Type} (pipe : Pipe) (c : Cache α)
    (label : String) (d : DomainType) :
    enable pipe c label d = (c, pipe (enable_request label d)) ∧
    disable pipe c label d = (c, pipe (disable_request label d)) :=
  ⟨rfl, rfl⟩

theorem list_all_foldr (pipe : Pipe) :
    ∀ l : List DomainType,
      (((l.filterMap (fun t => (svc_for_type pipe t).toOption)).flatten).toFinset : Finset String) =
        l.foldr (fun t acc => domain_contribution pipe t ∪ acc) ∅
  | [] => rfl
  | t :: rest => by
    have ih := list_all_foldr pipe rest
    simp only [List.foldr_cons, List.filterMap_cons, ← ih]
    cases h : svc_for_type pipe t with
    | ok ks =>
      have hc : domain_contribution pipe t = ks.toFinset := by
        simp only [domain_contribution, h]
      simp [Except.toOption, hc, List.toFinset_append]
    | error e =>
      have hc : domain_contribution pipe t = ∅ := by
        simp only [domain_contribution, h]
      simp [Except.toOption, hc]

/-- Claim C4: `list_all` returns exactly the union of the service-label sets
contributed by each succeeding per-domain list call over System,
RequestorUserDomain and RequestorDomain, plus User exactly when the invoking
principal is privileged (euid 0); a failing domain contributes the empty set,
no error reaches the caller (the result is a plain set), and duplicate labels
across domains appear once. -/
theorem list_all_is_union (pipe : Pipe) (euid : Nat) :
    list_all pipe euid =
      domain_contribution pipe DomainType.system ∪
      domain_contribution pipe DomainType.requestorUserDomain ∪
      domain_contribution pipe DomainType.requestorDomain ∪
      (if euid = 0 then domain_contribution pipe DomainType.user else ∅) := by
  rw [list_all, list_all_foldr]
  by_cases h : euid = 0 <;>
    simp [list_all_domains, h, Finset.union_assoc, Finset.union_empty]

/-- Claim C5: when the transport response to `dumpstate` carries a
"bytes-written" field of 4096, it returns (4096, region); when the field is
absent it returns MalformedResponse; when the field holds a
negative-equivalent value it returns ConversionFailure. -/
theorem dumpstate_response_cases :
    dumpstate alloc_ok pipe_bytes_4096 = Except.ok (4096, ⟨7, 0x1400000⟩) ∧
    dumpstate alloc_ok pipe_bytes_absent = Except.error XPCError.malformedResponse ∧
    dumpstate alloc_ok pipe_bytes_negative = Except.error XPCError.conversionFailure :=
  ⟨rfl, rfl, rfl⟩

/-- Claim C10: when shared-memory allocation fails in `dumpstate`, the
allocation error is returned immediately, and the result does not depend on
the transport at all — the transport exchange is never attempted. -/
theorem dumpstate_alloc_failure_no_dispatch (e : XPCError) (pipe pipe' : Pipe) :
    dumpstate (fun _ _ => Except.error e) pipe = Except.error e ∧
    dumpstate (fun _ _ => Except.error e) pipe = dumpstate (fun _ _ => Except.error e) pipe' :=
  ⟨rfl, rfl⟩

/-- Claim C6: for every combination of the six filter bits, the display
rendering of the mask is the concatenation of one lowercase letter per set bit
in the fixed order s, g, u, a, d, l — exactly the letters of the set bits —
and the mask with no bits set renders as the empty string. -/
theorem display_renders_set_bits_in_order :
    (∀ s g u a d l : Bool,
      to_display_string (JobTypeFilter.ofBits s g u a d l) =
        (if s then "s" else "") ++ (if g then "g" else "") ++ (if u then "u" else "") ++
        (if a then "a" else "") ++ (if d then "d" else "") ++ (if l then "l" else "")) ∧
    to_display_string 0 = "" := by
  constructor
  · intro s g u a d l
    cases s <;> cases g <;> cases u <;> cases a <;> cases d <;> cases l <;> rfl
  · rfl

/-- Claim C8: the debug label of a mask with exactly one bit set is the
canonical uppercase name of that bit, and every mask over the six bits with
zero bits or more than one bit set gets the empty label; `debug_label` is a
total function, so no error or panic arises. -/
theorem debug_label_single_bit_only :
    ∀ s g u a d l : Bool,
      debug_label (JobTypeFilter.ofBits s g u a d l) = debug_label_expected s g u a d l := by
  intro s g u a d l
  cases s <;> cases g <;> cases u <;> cases a <;> cases d <;> cases l <;> rfl

end Launchk
